import Mathlib

/-!
Verification of the educational-platform admin backend (Next.js API routes).

Each definition below is a shallow embedding of a concrete piece of the
JavaScript source, translated function-by-function:

* `serveRange` — the Range-request branch of the video streaming proxy
  (`frontend/pages/api/videos/[...key].js`, Range handling).
* `login` — the authentication handler (user lookup, password, account state,
  subscription gating, device limiting) from the login API route.
* `patchAllowedDevices` / `deleteDevice` — the PATCH / DELETE branches of the
  device-administration endpoints (`frontend/pages/api/students/devices.js`,
  `frontend/pages/api/assistants/devices.js`).
* `mintKey` — the object-key minting of the upload endpoint
  (`frontend/pages/api/upload/r2-signed-url.js`).

Strings manipulated character-by-character (HTTP headers, object keys) are
represented as `List Char`; JavaScript numbers that are always non-negative
integers in the modelled paths are `Nat`, and quantities that may go negative
(`end - start + 1`, `allowed_devices` from the database) are `Int`.
-/

/-! ### Streaming proxy: Range request handling

Embeds the `if (rangeHeader) { ... }` block of the handler in
`frontend/pages/api/videos/[...key].js` (metadata fetch, regex parse of
`bytes=(\d*)-(\d*)`, bounds check, 206/416 response headers).
-/

/-- Numeric value of a digit string, as computed by JavaScript
`parseInt(s, 10)` on a string of decimal digits. -/
def digitsToNat (cs : List Char) : Nat :=
  cs.foldl (fun a c => 10 * a + (c.toNat - 48)) 0

/-- The two capture groups of the anchored regex `^bytes=(\d*)-(\d*)$`,
applied to the part after `bytes=`: a maximal digit prefix, a literal `-`,
and a digit-only remainder. `none` when the regex does not match. -/
def rangeGroups (cs : List Char) : Option (List Char × List Char) :=
  let g1 := cs.takeWhile Char.isDigit
  match cs.dropWhile Char.isDigit with
  | '-' :: rest => if rest.all Char.isDigit then some (g1, rest) else none
  | _ => none

/-- `rangeHeader.match(/^bytes=(\d*)-(\d*)$/)`: the header must start with
the literal `bytes=` and the remainder must match `(\d*)-(\d*)`. -/
def parseRangeHeader : List Char → Option (List Char × List Char)
  | 'b' :: 'y' :: 't' :: 'e' :: 's' :: '=' :: rest => rangeGroups rest
  | _ => none

/-- Decimal rendering of a `Nat`, as produced by JavaScript template-literal
interpolation of a non-negative integer. -/
def natChars (n : Nat) : List Char := Nat.toDigits 10 n

/-- The response of the Range branch, reduced to the observable fields the
spec talks about: HTTP status, `Content-Range` header, `Content-Length`. -/
structure VideoResponse where
  status : Nat
  contentRange : Option (List Char)
  contentLength : Option Int
deriving DecidableEq

/-- The 416 response: `res.setHeader('Content-Range', `bytes */${totalSize}`);
res.status(416).end()`. -/
def notSatResp (totalSize : Nat) : VideoResponse :=
  { status := 416
    contentRange := some ("bytes */".data ++ natChars totalSize)
    contentLength := none }

/-- The `Content-Range` value `bytes ${start}-${end}/${totalSize}` of a 206
response. -/
def renderRange (start stop totalSize : Nat) : List Char :=
  "bytes ".data ++ natChars start ++ '-' :: natChars stop ++ '/' :: natChars totalSize

/-- The 206 response: status, `Content-Range`, and
`Content-Length = end - start + 1` (a JavaScript number, hence `Int`). -/
def servedResp (start stop totalSize : Nat) : VideoResponse :=
  { status := 206
    contentRange := some (renderRange start stop totalSize)
    contentLength := some ((stop : Int) - (start : Int) + 1) }

/-- The bounds check and final response:
`if (start >= totalSize || end >= totalSize) → 416 else → 206`. -/
def checkAndServe (totalSize start stop : Nat) : VideoResponse :=
  if start ≥ totalSize ∨ stop ≥ totalSize then notSatResp totalSize
  else servedResp start stop totalSize

/-- The open-ended chunk bound `5 * 1024 * 1024` bytes. -/
def CHUNK : Nat := 5 * 1024 * 1024

/-- The whole Range branch of the streaming handler, for an object of size
`totalSize` and a `Range` header value `rangeHeader`.

Follows the source line by line: unparseable header → 416; `bytes=s-e` →
`start := s, end := e`; `bytes=s-` → `end := min (s + 5MiB - 1) (total - 1)`;
`bytes=-n` → `start := max 0 (total - n), end := total - 1` (`Nat`
subtraction is the `Math.max(0, _)`); `bytes=-` → 416; then the bounds
check. -/
def serveRange (totalSize : Nat) (rangeHeader : List Char) : VideoResponse :=
  match parseRangeHeader rangeHeader with
  | none => notSatResp totalSize
  | some (g1, g2) =>
    if g1 ≠ [] ∧ g2 ≠ [] then
      checkAndServe totalSize (digitsToNat g1) (digitsToNat g2)
    else if g1 ≠ [] then
      let start := digitsToNat g1
      checkAndServe totalSize start (min (start + CHUNK - 1) (totalSize - 1))
    else if g2 ≠ [] then
      let suffix := digitsToNat g2
      checkAndServe totalSize (totalSize - suffix) (totalSize - 1)
    else notSatResp totalSize

/-! ### Parsing lemmas for the Range regex -/

lemma takeWhile_digits_append (ds es : List Char) (hd : ds.all Char.isDigit = true) :
    (ds ++ '-' :: es).takeWhile Char.isDigit = ds := by
  induction ds with
  | nil => simp [List.takeWhile_cons]
  | cons c cs ih =>
    simp only [List.all_cons, Bool.and_eq_true] at hd
    simp [List.takeWhile_cons, hd.1, ih hd.2]

lemma dropWhile_digits_append (ds es : List Char) (hd : ds.all Char.isDigit = true) :
    (ds ++ '-' :: es).dropWhile Char.isDigit = '-' :: es := by
  induction ds with
  | nil => simp [List.dropWhile_cons]
  | cons c cs ih =>
    simp only [List.all_cons, Bool.and_eq_true] at hd
    simp [List.dropWhile_cons, hd.1, ih hd.2]

lemma rangeGroups_digits (ds es : List Char) (hd : ds.all Char.isDigit = true)
    (he : es.all Char.isDigit = true) :
    rangeGroups (ds ++ '-' :: es) = some (ds, es) := by
  simp [rangeGroups, takeWhile_digits_append ds es hd, dropWhile_digits_append ds es hd, he]

lemma parseRangeHeader_bytes (rest : List Char) :
    parseRangeHeader ("bytes=".data ++ rest) = rangeGroups rest := rfl

/-! ### Claims about the Range branch -/

/-- C2: for every Range request `bytes=start-end` (both groups non-empty digit
strings) with `start ≤ end < totalSize`, the proxy responds 206 with
`Content-Range` exactly `bytes start-end/totalSize` and `Content-Length`
exactly `end - start + 1`. -/
theorem c2_explicit_range (totalSize : Nat) (ds es : List Char)
    (hd : ds.all Char.isDigit = true) (hd0 : ds ≠ [])
    (he : es.all Char.isDigit = true) (he0 : es ≠ [])
    (hle : digitsToNat ds ≤ digitsToNat es)
    (hlt : digitsToNat es < totalSize) :
    serveRange totalSize ("bytes=".data ++ (ds ++ '-' :: es)) =
      { status := 206
        contentRange := some (renderRange (digitsToNat ds) (digitsToNat es) totalSize)
        contentLength := some ((digitsToNat es : Int) - (digitsToNat ds : Int) + 1) } := by
  have hparse : parseRangeHeader ("bytes=".data ++ (ds ++ '-' :: es)) = some (ds, es) := by
    rw [parseRangeHeader_bytes, rangeGroups_digits ds es hd he]
  have hnot : ¬ (digitsToNat ds ≥ totalSize ∨ digitsToNat es ≥ totalSize) := by omega
  unfold serveRange
  rw [hparse]
  dsimp only
  rw [if_pos ⟨hd0, he0⟩]
  unfold checkAndServe
  rw [if_neg hnot]
  rfl

/-- Witness for C2, at the spec scenario: a 10-byte object and
`Range: bytes=2-5` give 206, `Content-Range: bytes 2-5/10`, 4 bytes. -/
theorem c2_explicit_range_witness :
    serveRange 10 ("bytes=".data ++ (['2'] ++ '-' :: ['5'])) =
      { status := 206
        contentRange := some (renderRange (digitsToNat ['2']) (digitsToNat ['5']) 10)
        contentLength := some ((digitsToNat ['5'] : Int) - (digitsToNat ['2'] : Int) + 1) } :=
  c2_explicit_range 10 ['2'] ['5'] (by decide) (by decide) (by decide) (by decide)
    (by decide) (by decide)

/-- C3 is false as stated at the edge case `N = 0`: for a 10-byte object,
`Range: bytes=-0` is answered with 416, not with a 206 response of
`min(0, 10) = 0` bytes. -/
theorem c3_suffix_counterexample :
    serveRange 10 ("bytes=-0".data) = notSatResp 10 ∧
      (serveRange 10 ("bytes=-0".data)).status ≠ 206 := by
  constructor
  · rfl
  · decide

/-- C3 (amended): for every suffix Range request `bytes=-N` with `N ≥ 1` on an
object of size `totalSize ≥ 1`, the proxy serves the last `min(N, totalSize)`
bytes: a 206 response with `start = max(0, totalSize - N)` (here `Nat`
subtraction), `end = totalSize - 1`, and `Content-Length = min(N, totalSize)`.
(`bytes=-0`, and any suffix request on an empty object, gets 416 instead.) -/
theorem c3_suffix_amended (totalSize : Nat) (es : List Char)
    (he : es.all Char.isDigit = true) (he0 : es ≠ [])
    (hN : 1 ≤ digitsToNat es) (ht : 1 ≤ totalSize) :
    serveRange totalSize ("bytes=".data ++ ('-' :: es)) =
        servedResp (totalSize - digitsToNat es) (totalSize - 1) totalSize ∧
      (servedResp (totalSize - digitsToNat es) (totalSize - 1) totalSize).contentLength =
        some (min (digitsToNat es : Int) (totalSize : Int)) := by
  have hparse : parseRangeHeader ("bytes=".data ++ ('-' :: es)) = some ([], es) := by
    rw [parseRangeHeader_bytes]
    exact rangeGroups_digits [] es (by decide) he
  have hnot : ¬ (totalSize - digitsToNat es ≥ totalSize ∨ totalSize - 1 ≥ totalSize) := by omega
  constructor
  · unfold serveRange
    rw [hparse]
    dsimp only
    rw [if_neg (by simp), if_neg (by simp), if_pos he0]
    unfold checkAndServe
    rw [if_neg hnot]
  · simp only [servedResp]
    congr 1
    omega

/-- Witness for the amended C3: `bytes=-4` on a 10-byte object serves bytes
6–9, i.e. `Content-Length = 4 = min(4, 10)`. -/
theorem c3_suffix_amended_witness :
    serveRange 10 ("bytes=".data ++ ('-' :: ['4'])) =
        servedResp (10 - digitsToNat ['4']) (10 - 1) 10 ∧
      (servedResp (10 - digitsToNat ['4']) (10 - 1) 10).contentLength =
        some (min (digitsToNat ['4'] : Int) (10 : Int)) :=
  c3_suffix_amended 10 ['4'] (by decide) (by decide) (by decide) (by decide)

/-- C4 is false as stated: `Range: bytes=2-15` on a 10-byte object is
parseable and has `start = 2 < 10`, so the claim says it is clamped and
served with 206; the code instead answers 416 because `end = 15 ≥ 10`. -/
theorem c4_bounds_counterexample :
    serveRange 10 ("bytes=2-15".data) = notSatResp 10 ∧
      (serveRange 10 ("bytes=2-15".data)).status ≠ 206 := by
  constructor
  · rfl
  · decide

/-- C4 (amended): for a parseable request `bytes=start-end` (both groups
non-empty digit strings), the proxy answers 416 exactly when
`start ≥ totalSize` or `end ≥ totalSize`; no clamping of an explicit `end`
to the object bounds takes place. -/
theorem c4_bounds_amended (totalSize : Nat) (ds es : List Char)
    (hd : ds.all Char.isDigit = true) (hd0 : ds ≠ [])
    (he : es.all Char.isDigit = true) (he0 : es ≠ []) :
    (serveRange totalSize ("bytes=".data ++ (ds ++ '-' :: es))).status = 416 ↔
      (digitsToNat ds ≥ totalSize ∨ digitsToNat es ≥ totalSize) := by
  have hparse : parseRangeHeader ("bytes=".data ++ (ds ++ '-' :: es)) = some (ds, es) := by
    rw [parseRangeHeader_bytes, rangeGroups_digits ds es hd he]
  unfold serveRange
  rw [hparse]
  dsimp only
  rw [if_pos ⟨hd0, he0⟩]
  unfold checkAndServe
  by_cases h : digitsToNat ds ≥ totalSize ∨ digitsToNat es ≥ totalSize
  · rw [if_pos h]
    simp [notSatResp, h]
  · rw [if_neg h]
    simp [servedResp, h]

/-- Witness for the amended C4: `bytes=2-15` on a 10-byte object gets 416
(end out of bounds), while `bytes=2-5` does not. -/
theorem c4_bounds_amended_witness :
    ((serveRange 10 ("bytes=".data ++ (['2'] ++ '-' :: ['1', '5']))).status = 416 ∧
      ¬ (serveRange 10 ("bytes=".data ++ (['2'] ++ '-' :: ['5']))).status = 416) := by
  constructor
  · exact (c4_bounds_amended 10 ['2'] ['1', '5'] (by decide) (by decide) (by decide)
      (by decide)).mpr (by decide)
  · intro h
    have := (c4_bounds_amended 10 ['2'] ['5'] (by decide) (by decide) (by decide)
      (by decide)).mp h
    revert this
    decide

/-- C10: an open-ended request `bytes=start-` with `start < totalSize` does
not serve the remainder of the object: it serves exactly
`end = min(start + 5*1024*1024 - 1, totalSize - 1)`, with `Content-Range`
and `Content-Length` reflecting that chunk, and the chunk is at most
5 MiB long. -/
theorem c10_open_ended (totalSize : Nat) (ds : List Char)
    (hd : ds.all Char.isDigit = true) (hd0 : ds ≠ [])
    (hlt : digitsToNat ds < totalSize) :
    serveRange totalSize ("bytes=".data ++ (ds ++ ['-'])) =
        servedResp (digitsToNat ds)
          (min (digitsToNat ds + CHUNK - 1) (totalSize - 1)) totalSize ∧
      ((min (digitsToNat ds + CHUNK - 1) (totalSize - 1) : Int) -
          (digitsToNat ds : Int) + 1) ≤ (CHUNK : Int) := by
  have hparse : parseRangeHeader ("bytes=".data ++ (ds ++ ['-'])) = some (ds, []) := by
    rw [parseRangeHeader_bytes]
    exact rangeGroups_digits ds [] hd (by decide)
  have hCHUNK : 1 ≤ CHUNK := by decide
  have hnot : ¬ (digitsToNat ds ≥ totalSize ∨
      min (digitsToNat ds + CHUNK - 1) (totalSize - 1) ≥ totalSize) := by omega
  constructor
  · unfold serveRange
    rw [hparse]
    dsimp only
    rw [if_neg (by simp), if_pos hd0]
    unfold checkAndServe
    rw [if_neg hnot]
  · have h1 : min (digitsToNat ds + CHUNK - 1) (totalSize - 1) ≤
        digitsToNat ds + CHUNK - 1 := Nat.min_le_left _ _
    omega

/-- Witness for C10: `bytes=3-` on a 20,000,000-byte object serves bytes
3–5,242,882 (5 MiB), not the rest of the object. -/
theorem c10_open_ended_witness :
    serveRange 20000000 ("bytes=".data ++ (['3'] ++ ['-'])) =
        servedResp (digitsToNat ['3'])
          (min (digitsToNat ['3'] + CHUNK - 1) (20000000 - 1)) 20000000 ∧
      ((min (digitsToNat ['3'] + CHUNK - 1) (20000000 - 1) : Int) -
          (digitsToNat ['3'] : Int) + 1) ≤ (CHUNK : Int) :=
  c10_open_ended 20000000 ['3'] (by decide) (by decide) (by decide)

/-! ### Authentication handler: data model

Embeds the login API route (the `handler` that checks credentials, account
state, subscription, and device limitations before issuing the JWT cookie).
Database documents are modelled with `Option` for fields that may be absent;
string fields that the code tests for JavaScript truthiness use the empty
string as the falsy value.
-/

/-- One registered device record inside `device_limitations.devices`. -/
structure Device where
  device_id : String
  ip : String
  browser : String
  os : String
  device_type : String
  first_login : String
  last_login : String
deriving DecidableEq

/-- The `device_limitations` sub-document of a user. `allowed_devices` is
`none` when absent or not a number (the code tests `typeof === 'number'`);
`devices` is `none` when absent or not an array (`Array.isArray`). -/
structure DeviceLimitations where
  allowed_devices : Option Int
  devices : Option (List Device)
  last_login : Option String
deriving DecidableEq

/-- The subscription singleton document, with every field the expiration
handler nulls out. `date_of_expiration` is an epoch timestamp. -/
structure Subscription where
  active : Bool
  date_of_expiration : Option Int
  subscription_duration : Option Int
  date_of_subscription : Option Int
  cost : Option Int
  note : Option String
deriving DecidableEq

/-- The in-place deactivation write:
`$set {active: false, subscription_duration: null, date_of_subscription: null,
date_of_expiration: null, cost: null, note: null}`. -/
def deactivateSubscription (_s : Subscription) : Subscription :=
  { active := false
    date_of_expiration := none
    subscription_duration := none
    date_of_subscription := none
    cost := none
    note := none }

/-- The fields of a `users`-collection document that the login handler reads
or writes. The password hash is not modelled: `bcrypt.compare` is an external
call whose outcome enters as the boolean `passwordValid`. -/
structure User where
  role : String
  account_state : Option String
  device_limitations : Option DeviceLimitations
deriving DecidableEq

/-- The `students`-collection document consulted for a student's
`account_state`. -/
structure StudentDoc where
  account_state : Option String
deriving DecidableEq

/-- The stored state the login handler can read and write: the user document
found by the id lookup (`none` = `user_not_found`), the student document for
that id, and the subscription singleton. -/
structure Store where
  user : Option User
  student : Option StudentDoc
  subscription : Option Subscription
deriving DecidableEq

/-- JavaScript `a || b` for an optional string field: the fallback is used
when the field is absent or the empty string (falsy). -/
def jsOr (a : Option String) (b : String) : String :=
  match a with
  | some s => if s = "" then b else s
  | none => b

/-- JavaScript `a || b` on two strings. -/
def jsOrS (a b : String) : String := if a = "" then b else a

/-- Request data of one login attempt. `ip`, `browser`, `os`, `device_type`
are the values already derived from the headers and the `ua-parser-js`
result (with their code-side fallbacks `'unknown'` / `'Unknown'` /
`'desktop'` applied); that derivation is an external-library call. -/
structure LoginRequest where
  device_id : Option String
  ip : String
  browser : String
  os : String
  device_type : String
deriving DecidableEq

/-- Configuration and environment of one login attempt: the two feature
flags, the wall clock (epoch and its `formatDateTime` rendering), and the
outcome of `bcrypt.compare`. -/
structure LoginConfig where
  subscriptionEnabled : Bool
  deviceLimitEnabled : Bool
  now : Int
  nowFormatted : String
  passwordValid : Bool
deriving DecidableEq

/-- The observable outcome: an error response
`res.status(status).json({error})` or the success response with the role. -/
inductive LoginResult where
  | failure (status : Nat) (error : String)
  | success (role : String)
deriving DecidableEq

/-! ### Authentication handler: the checks -/

/-- Account-state resolution: students read `account_state` from the
`students` collection (missing document or field ⇒ `'Deactivated'`), other
roles read it from the `users` document. -/
def resolveAccountState (u : User) (student : Option StudentDoc) : String :=
  if u.role = "student" then
    match student with
    | some s => jsOr s.account_state "Deactivated"
    | none => "Deactivated"
  else jsOr u.account_state "Deactivated"

/-- The subscription block: when enabled and a subscription document exists,
an active subscription past its expiration is deactivated in place (a store
write), and an inactive (or just-deactivated) subscription rejects every
role other than `developer` and `student` with `subscription_inactive`; the
`subscription_expired` arm mirrors the source's second comparison against
the originally parsed expiration date. Returns the rejection (if any) and
the new stored subscription. -/
def subscriptionStep (enabled : Bool) (role : String) (now : Int)
    (sub : Option Subscription) : Option (Nat × String) × Option Subscription :=
  if enabled then
    match sub with
    | none => (none, none)
    | some s =>
      match s.date_of_expiration with
      | none =>
        if ¬ s.active then
          if role ≠ "developer" ∧ role ≠ "student" then
            (some (403, "subscription_inactive"), some s)
          else (none, some s)
        else (none, some s)
      | some exp =>
        let s1 := if s.active ∧ now ≥ exp then deactivateSubscription s else s
        if ¬ s1.active then
          if role ≠ "developer" ∧ role ≠ "student" then
            (some (403, "subscription_inactive"), some s1)
          else (none, some s1)
        else
          if now ≥ exp then
            if role ≠ "developer" ∧ role ≠ "student" then
              (some (403, "subscription_expired"), some s1)
            else (none, some s1)
          else (none, some s1)
  else (none, sub)

/-- `const existingLimitations = assistant.device_limitations || {};` followed
by `typeof existingLimitations.allowed_devices === 'number' ? ... : 1`:
the effective device cap. -/
def effectiveAllowed (lim : Option DeviceLimitations) : Int :=
  ((lim.getD { allowed_devices := none, devices := none, last_login := none }).allowed_devices).getD 1

/-- `Array.isArray(existingLimitations.devices) ? [...devices] : []`:
the effective device list. -/
def effectiveDevices (lim : Option DeviceLimitations) : List Device :=
  ((lim.getD { allowed_devices := none, devices := none, last_login := none }).devices).getD []

/-- Device-id derivation:
`(typeof device_id === 'string' && device_id.trim() !== '') ?
device_id.trim() : 'unknown-device'`. -/
def incomingDeviceIdOf (d : Option String) : String :=
  match d with
  | some s => if s.trim ≠ "" then s.trim else "unknown-device"
  | none => "unknown-device"

/-- The record pushed for a not-yet-registered device. -/
def newDeviceRecord (req : LoginRequest) (incoming nowFormatted : String) : Device :=
  { device_id := incoming
    ip := req.ip
    browser := req.browser
    os := req.os
    device_type := req.device_type
    first_login := nowFormatted
    last_login := nowFormatted }

/-- The in-place update of an already-registered device: `last_login` is set
to now, and each of `ip`/`browser`/`os`/`device_type` keeps its stored value
unless that value is falsy, in which case the request's value backfills it
(`devices[i].ip || ip`, etc.). -/
def updateExistingDevice (req : LoginRequest) (nowFormatted : String) (d : Device) : Device :=
  { d with
    ip := jsOrS d.ip req.ip
    browser := jsOrS d.browser req.browser
    os := jsOrS d.os req.os
    device_type := jsOrS d.device_type req.device_type
    last_login := nowFormatted }

/-- Replacement of the element at `findIndex p` by its image under `f`:
the source computes `existingIndex = devices.findIndex(p)` and assigns
`devices[existingIndex] = {...}`; updating the first element satisfying `p`
is the same operation. -/
def updateFirst (p : Device → Bool) (f : Device → Device) : List Device → List Device
  | [] => []
  | d :: ds => if p d then f d :: ds else d :: updateFirst p f ds

/-- The device-limitations block: when enabled and the role is not
`developer`, resolve the effective cap (`typeof === 'number' ? it : 1`) and
list (`Array.isArray ? copy : []`); an unregistered device is rejected with
`device_limit_reached` at capacity and appended below it, a registered one
is updated in place; on the non-rejecting paths the whole
`device_limitations` object is rewritten. Returns the rejection (if any)
and the new stored `device_limitations`. -/
def deviceStep (enabled : Bool) (role : String) (req : LoginRequest)
    (nowFormatted : String) (lim : Option DeviceLimitations) :
    Option (Nat × String) × Option DeviceLimitations :=
  if enabled ∧ role ≠ "developer" then
    let incoming := incomingDeviceIdOf req.device_id
    let allowedDevices : Int := effectiveAllowed lim
    let devices : List Device := effectiveDevices lim
    match devices.find? (fun d => d.device_id = incoming) with
    | none =>
      if (devices.length : Int) ≥ allowedDevices then
        (some (403, "device_limit_reached"), lim)
      else
        (none, some { allowed_devices := some allowedDevices
                      last_login := some nowFormatted
                      devices := some (devices ++ [newDeviceRecord req incoming nowFormatted]) })
    | some _ =>
      (none, some { allowed_devices := some allowedDevices
                    last_login := some nowFormatted
                    devices := some (updateFirst (fun d => d.device_id = incoming)
                      (updateExistingDevice req nowFormatted) devices) })
  else (none, lim)

/-- The whole login handler, as a function from configuration, request and
stored state to the response and the new stored state, with the checks in
source order: user lookup, `bcrypt.compare`, account state, subscription
gating, device limiting, then success (JWT issuing is not modelled beyond
the success result). -/
def login (cfg : LoginConfig) (req : LoginRequest) (st : Store) : LoginResult × Store :=
  match st.user with
  | none => (.failure 401 "user_not_found", st)
  | some u =>
    if ¬ cfg.passwordValid then (.failure 401 "wrong_password", st)
    else if resolveAccountState u st.student ≠ "Activated" then
      if u.role = "student" then (.failure 403 "student_account_deactivated", st)
      else (.failure 403 "account_deactivated", st)
    else
      match subscriptionStep cfg.subscriptionEnabled u.role cfg.now st.subscription with
      | (some (code, err), sub2) => (.failure code err, { st with subscription := sub2 })
      | (none, sub2) =>
        match deviceStep cfg.deviceLimitEnabled u.role req cfg.nowFormatted
            u.device_limitations with
        | (some (code, err), _) => (.failure code err, { st with subscription := sub2 })
        | (none, lim2) =>
          (.success u.role,
            { st with
              subscription := sub2
              user := some { u with device_limitations := lim2 } })

/-! ### Claims about the login handler -/

/-- The device list stored for the logged-in user, when the user exists. -/
def storedDeviceList (st : Store) : Option (List Device) :=
  st.user.map (fun u => effectiveDevices u.device_limitations)

/-- C1: in a login with device limiting enabled, a non-exempt role, and every
earlier check passing, when the incoming device id is not in the user's
device list: at or above the cap (`devices.length ≥ allowed_devices`) the
login fails 403 `device_limit_reached`; below the cap it succeeds and
appends exactly one record carrying the incoming device id with
`first_login = last_login = now`. -/
theorem c1_device_cap (cfg : LoginConfig) (req : LoginRequest) (st : Store) (u : User)
    (hu : st.user = some u)
    (hpw : cfg.passwordValid = true)
    (hacct : resolveAccountState u st.student = "Activated")
    (hsub : (subscriptionStep cfg.subscriptionEnabled u.role cfg.now st.subscription).1 = none)
    (hen : cfg.deviceLimitEnabled = true)
    (hrole : u.role ≠ "developer")
    (hnew : ∀ d ∈ effectiveDevices u.device_limitations,
        d.device_id ≠ incomingDeviceIdOf req.device_id) :
    ((((effectiveDevices u.device_limitations).length : Int) ≥
          effectiveAllowed u.device_limitations →
        (login cfg req st).1 = LoginResult.failure 403 "device_limit_reached") ∧
      ((((effectiveDevices u.device_limitations).length : Int) <
          effectiveAllowed u.device_limitations) →
        (login cfg req st).1 = LoginResult.success u.role ∧
        storedDeviceList (login cfg req st).2 =
          some (effectiveDevices u.device_limitations ++
            [newDeviceRecord req (incomingDeviceIdOf req.device_id) cfg.nowFormatted]))) := by
  have hfind : (effectiveDevices u.device_limitations).find?
      (fun d => d.device_id = incomingDeviceIdOf req.device_id) = none := by
    rw [List.find?_eq_none]
    intro d hdmem
    simpa using hnew d hdmem
  rcases hs : subscriptionStep cfg.subscriptionEnabled u.role cfg.now st.subscription
    with ⟨err, sub2⟩
  rw [hs] at hsub
  dsimp only at hsub
  subst hsub
  have hlogin : ∀ res : Option (Nat × String) × Option DeviceLimitations,
      deviceStep cfg.deviceLimitEnabled u.role req cfg.nowFormatted u.device_limitations = res →
      login cfg req st =
        (match res with
          | (some (code, err), _) => (LoginResult.failure code err, { st with subscription := sub2 })
          | (none, lim2) =>
            (LoginResult.success u.role,
              { st with
                subscription := sub2
                user := some { u with device_limitations := lim2 } })) := by
    intro res hres
    unfold login
    rw [hu]
    dsimp only
    rw [if_neg (by simp [hpw]), if_neg (by simp [hacct]), hs]
    dsimp only
    rw [hres]
  constructor
  · intro hge
    have hdev : deviceStep cfg.deviceLimitEnabled u.role req cfg.nowFormatted
        u.device_limitations = (some (403, "device_limit_reached"), u.device_limitations) := by
      unfold deviceStep
      rw [if_pos ⟨hen, hrole⟩]
      dsimp only
      rw [hfind]
      dsimp only
      rw [if_pos hge]
    rw [hlogin _ hdev]
  · intro hlt
    have hdev : deviceStep cfg.deviceLimitEnabled u.role req cfg.nowFormatted
        u.device_limitations =
        (none, some { allowed_devices := some (effectiveAllowed u.device_limitations)
                      last_login := some cfg.nowFormatted
                      devices := some (effectiveDevices u.device_limitations ++
                        [newDeviceRecord req (incomingDeviceIdOf req.device_id)
                          cfg.nowFormatted]) }) := by
      unfold deviceStep
      rw [if_pos ⟨hen, hrole⟩]
      dsimp only
      rw [hfind]
      dsimp only
      rw [if_neg (by omega)]
    rw [hlogin _ hdev]
    refine ⟨rfl, ?_⟩
    simp [storedDeviceList, effectiveDevices]

/-- Witness for C1 (below-cap half), at the spec scenario: cap 1, empty
device list, login from device `A` succeeds and the list becomes `[A]`. -/
theorem c1_device_cap_witness :
    (login ⟨false, true, 0, "NOW", true⟩ ⟨some "A", "1.1.1.1", "Chrome", "Win", "desktop"⟩
        ⟨some ⟨"student", none, some ⟨some 1, some [], none⟩⟩,
          some ⟨some "Activated"⟩, none⟩).1 = LoginResult.success "student" ∧
      storedDeviceList
        (login ⟨false, true, 0, "NOW", true⟩ ⟨some "A", "1.1.1.1", "Chrome", "Win", "desktop"⟩
          ⟨some ⟨"student", none, some ⟨some 1, some [], none⟩⟩,
            some ⟨some "Activated"⟩, none⟩).2 =
        some (effectiveDevices (some ⟨some 1, some [], none⟩) ++
          [newDeviceRecord ⟨some "A", "1.1.1.1", "Chrome", "Win", "desktop"⟩
            (incomingDeviceIdOf (some "A")) "NOW"]) := by
  have h := c1_device_cap ⟨false, true, 0, "NOW", true⟩
    ⟨some "A", "1.1.1.1", "Chrome", "Win", "desktop"⟩
    ⟨some ⟨"student", none, some ⟨some 1, some [], none⟩⟩, some ⟨some "Activated"⟩, none⟩
    ⟨"student", none, some ⟨some 1, some [], none⟩⟩
    rfl rfl (by decide) rfl rfl (by decide) (by simp [effectiveDevices])
  exact h.2 (by decide)

/-- In every run, the stored subscription either is untouched or has been
deactivated in place (the only subscription write the handler contains),
and deactivation only happens to an active subscription. -/
lemma subscriptionStep_snd (enabled : Bool) (role : String) (now : Int)
    (sub : Option Subscription) :
    (subscriptionStep enabled role now sub).2 = sub ∨
      ∃ s, sub = some s ∧ s.active = true ∧
        (subscriptionStep enabled role now sub).2 = some (deactivateSubscription s) := by
  by_cases hen : enabled
  · cases sub with
    | none => simp [subscriptionStep, hen]
    | some s =>
      cases hexp : s.date_of_expiration with
      | none =>
        left
        unfold subscriptionStep
        rw [if_pos hen]
        dsimp only
        rw [hexp]
        split_ifs <;> rfl
      | some exp =>
        by_cases hact : s.active = true ∧ now ≥ exp
        · right
          refine ⟨s, rfl, hact.1, ?_⟩
          unfold subscriptionStep
          rw [if_pos hen]
          dsimp only
          rw [hexp]
          dsimp only
          rw [if_pos (show s.active = true ∧ now ≥ exp from hact)]
          split_ifs <;> rfl
        · left
          unfold subscriptionStep
          rw [if_pos hen]
          dsimp only
          rw [hexp]
          dsimp only
          rw [if_neg (show ¬ (s.active = true ∧ now ≥ exp) from hact)]
          split_ifs <;> rfl
  · simp [subscriptionStep, hen]

/-- C5 is false as stated: a login by an assistant while the subscription is
active but past expiration fails with `subscription_inactive`, yet the
failing request has already mutated stored state (the subscription document
was deactivated in place before the rejection). -/
theorem c5_counterexample :
    ((login ⟨true, false, 200, "NOW", true⟩ ⟨none, "ip", "b", "o", "d"⟩
        ⟨some ⟨"assistant", some "Activated", none⟩, none,
          some ⟨true, some 100, some 30, some 1, some 5, some "n"⟩⟩).1 =
      LoginResult.failure 403 "subscription_inactive") ∧
    ((login ⟨true, false, 200, "NOW", true⟩ ⟨none, "ip", "b", "o", "d"⟩
        ⟨some ⟨"assistant", some "Activated", none⟩, none,
          some ⟨true, some 100, some 30, some 1, some 5, some "n"⟩⟩).2.subscription ≠
      some ⟨true, some 100, some 30, some 1, some 5, some "n"⟩) := by
  constructor
  · rfl
  · decide

/-- C5 (amended): every failing check returns immediately with its error code
and leaves the user document (hence the device list) and the student document
untouched; the only stored-state mutations are the in-place deactivation of
an active, expired subscription — which can precede a
`subscription_inactive` rejection — and the device-list write, which happens
only on a successful login. -/
theorem c5_no_partial_mutation_amended (cfg : LoginConfig) (req : LoginRequest) (st : Store) :
    ((∀ code err, (login cfg req st).1 = LoginResult.failure code err →
        ((login cfg req st).2).user = st.user) ∧
      ((login cfg req st).2).student = st.student ∧
      (((login cfg req st).2).subscription = st.subscription ∨
        ∃ s, st.subscription = some s ∧ s.active = true ∧
          ((login cfg req st).2).subscription = some (deactivateSubscription s)) ∧
      (((login cfg req st).2).user = st.user ∨
        ∃ u lim2, st.user = some u ∧
          ((login cfg req st).2).user = some { u with device_limitations := lim2 } ∧
          (login cfg req st).1 = LoginResult.success u.role)) := by
  rcases hu : st.user with _ | u
  · refine ⟨?_, ?_, ?_, ?_⟩ <;> simp [login, hu]
  · by_cases hpw : cfg.passwordValid
    · by_cases hacct : resolveAccountState u st.student = "Activated"
      · rcases hsx : subscriptionStep cfg.subscriptionEnabled u.role cfg.now st.subscription
          with ⟨errOpt, sub2⟩
        have hsub2 := subscriptionStep_snd cfg.subscriptionEnabled u.role cfg.now st.subscription
        rw [hsx] at hsub2
        dsimp only at hsub2
        rcases errOpt with _ | ⟨code, err⟩
        · rcases hdx : deviceStep cfg.deviceLimitEnabled u.role req cfg.nowFormatted
            u.device_limitations with ⟨derrOpt, lim2⟩
          rcases derrOpt with _ | ⟨dcode, derr⟩
          · have hl : login cfg req st =
                (LoginResult.success u.role,
                  { st with
                    subscription := sub2
                    user := some { u with device_limitations := lim2 } }) := by
              unfold login
              rw [hu]
              dsimp only
              rw [if_neg (by simp [hpw]), if_neg (by simp [hacct]), hsx]
              dsimp only
              rw [hdx]
            refine ⟨?_, ?_, ?_, ?_⟩
            · intro code err hcontra
              rw [hl] at hcontra
              exact absurd hcontra (by simp)
            · simp [hl]
            · simpa [hl] using hsub2
            · right
              exact ⟨u, lim2, rfl, by simp [hl], by simp [hl]⟩
          · have hl : login cfg req st =
                (LoginResult.failure dcode derr, { st with subscription := sub2 }) := by
              unfold login
              rw [hu]
              dsimp only
              rw [if_neg (by simp [hpw]), if_neg (by simp [hacct]), hsx]
              dsimp only
              rw [hdx]
            refine ⟨?_, ?_, ?_, ?_⟩
            · intro code err _
              simp [hl, hu]
            · simp [hl]
            · simpa [hl] using hsub2
            · left
              simp [hl, hu]
        · have hl : login cfg req st =
              (LoginResult.failure code err, { st with subscription := sub2 }) := by
            unfold login
            rw [hu]
            dsimp only
            rw [if_neg (by simp [hpw]), if_neg (by simp [hacct]), hsx]
          refine ⟨?_, ?_, ?_, ?_⟩
          · intro code err _
            simp [hl, hu]
          · simp [hl]
          · simpa [hl] using hsub2
          · left
            simp [hl, hu]
      · have hl : login cfg req st =
            (if u.role = "student" then
              (LoginResult.failure 403 "student_account_deactivated", st)
            else (LoginResult.failure 403 "account_deactivated", st)) := by
          unfold login
          rw [hu]
          dsimp only
          rw [if_neg (by simp [hpw]), if_pos hacct]
        by_cases hr : u.role = "student" <;>
          refine ⟨?_, ?_, ?_, ?_⟩ <;> simp [hl, hr, hu]
    · have hl : login cfg req st = (LoginResult.failure 401 "wrong_password", st) := by
        unfold login
        rw [hu]
        dsimp only
        rw [if_pos (by simpa using hpw)]
      refine ⟨?_, ?_, ?_, ?_⟩ <;> simp [hl, hu]

/-- Witness for the amended C5, at the counterexample input: the
`subscription_inactive` failure leaves the user document unchanged. -/
theorem c5_no_partial_mutation_amended_witness :
    ((login ⟨true, false, 200, "NOW", true⟩ ⟨none, "ip", "b", "o", "d"⟩
        ⟨some ⟨"assistant", some "Activated", none⟩, none,
          some ⟨true, some 100, some 30, some 1, some 5, some "n"⟩⟩).2).user =
      some ⟨"assistant", some "Activated", none⟩ :=
  (c5_no_partial_mutation_amended ⟨true, false, 200, "NOW", true⟩ ⟨none, "ip", "b", "o", "d"⟩
    ⟨some ⟨"assistant", some "Activated", none⟩, none,
      some ⟨true, some 100, some 30, some 1, some 5, some "n"⟩⟩).1
    403 "subscription_inactive" (by decide)

/-- `findIndex` semantics: the first match in `l1 ++ d :: l2` is `d` when
nothing in `l1` matches and `d` does. -/
lemma find?_append_cons (p : Device → Bool) (l1 : List Device) (d : Device)
    (l2 : List Device) (h1 : ∀ x ∈ l1, p x = false) (hd : p d = true) :
    List.find? p (l1 ++ d :: l2) = some d := by
  induction l1 with
  | nil => simp [List.find?_cons, hd]
  | cons a l ih =>
    have ha : p a = false := h1 a (by simp)
    simp only [List.cons_append, List.find?_cons, ha, cond_false]
    exact ih (fun x hx => h1 x (by simp [hx]))

/-- Assignment at the first matching index: `updateFirst` rewrites exactly
the first element satisfying `p` and leaves everything else in place. -/
lemma updateFirst_append_cons (p : Device → Bool) (f : Device → Device)
    (l1 : List Device) (d : Device) (l2 : List Device)
    (h1 : ∀ x ∈ l1, p x = false) (hd : p d = true) :
    updateFirst p f (l1 ++ d :: l2) = l1 ++ f d :: l2 := by
  induction l1 with
  | nil => simp [updateFirst, hd]
  | cons a l ih =>
    have ha : p a = false := h1 a (by simp)
    simp only [List.cons_append, updateFirst, ha, Bool.false_eq_true, if_false,
      List.cons.injEq, true_and]
    exact ih (fun x hx => h1 x (by simp [hx]))

/-- C6 is false as stated: re-login from registered device `A` whose stored
record has an empty `ip` backfills `ip` from the request, so a field other
than `last_login` changes. The stored list becomes the single record with
`ip = "1.1.1.1"`, and that record with `last_login` reverted to its old
value still differs from the original record. -/
theorem c6_existing_device_counterexample :
    (storedDeviceList
        (login ⟨false, true, 0, "NOW", true⟩
          ⟨none, "1.1.1.1", "Chrome", "Win", "desktop"⟩
          ⟨some ⟨"student", none,
              some ⟨some 1,
                some [⟨"unknown-device", "", "Chrome", "Win", "desktop", "T0", "T0"⟩], none⟩⟩,
            some ⟨some "Activated"⟩, none⟩).2 =
      some [⟨"unknown-device", "1.1.1.1", "Chrome", "Win", "desktop", "T0", "NOW"⟩]) ∧
    (⟨"unknown-device", "1.1.1.1", "Chrome", "Win", "desktop", "T0", "T0"⟩ : Device) ≠
      ⟨"unknown-device", "", "Chrome", "Win", "desktop", "T0", "T0"⟩ := by
  constructor
  · rfl
  · decide

/-- C6 (amended): re-login from an already-registered device (with every
earlier check passing) succeeds and never grows or shrinks the device list;
the matching record's `last_login` is set to now, its `device_id` and
`first_login` are unchanged, its `ip`/`browser`/`os`/`device_type` are
unchanged whenever non-empty (an empty stored value is backfilled from the
request), and every other record is unchanged. -/
theorem c6_existing_device_amended (cfg : LoginConfig) (req : LoginRequest) (st : Store)
    (u : User) (l1 l2 : List Device) (d : Device)
    (hu : st.user = some u)
    (hpw : cfg.passwordValid = true)
    (hacct : resolveAccountState u st.student = "Activated")
    (hsub : (subscriptionStep cfg.subscriptionEnabled u.role cfg.now st.subscription).1 = none)
    (hen : cfg.deviceLimitEnabled = true)
    (hrole : u.role ≠ "developer")
    (hsplit : effectiveDevices u.device_limitations = l1 ++ d :: l2)
    (hl1 : ∀ x ∈ l1, x.device_id ≠ incomingDeviceIdOf req.device_id)
    (hd : d.device_id = incomingDeviceIdOf req.device_id) :
    (login cfg req st).1 = LoginResult.success u.role ∧
    storedDeviceList (login cfg req st).2 =
      some (l1 ++ updateExistingDevice req cfg.nowFormatted d :: l2) ∧
    (l1 ++ updateExistingDevice req cfg.nowFormatted d :: l2).length =
      (effectiveDevices u.device_limitations).length ∧
    (updateExistingDevice req cfg.nowFormatted d).last_login = cfg.nowFormatted ∧
    (updateExistingDevice req cfg.nowFormatted d).device_id = d.device_id ∧
    (updateExistingDevice req cfg.nowFormatted d).first_login = d.first_login ∧
    (d.ip ≠ "" → (updateExistingDevice req cfg.nowFormatted d).ip = d.ip) ∧
    (d.browser ≠ "" → (updateExistingDevice req cfg.nowFormatted d).browser = d.browser) ∧
    (d.os ≠ "" → (updateExistingDevice req cfg.nowFormatted d).os = d.os) ∧
    (d.device_type ≠ "" →
      (updateExistingDevice req cfg.nowFormatted d).device_type = d.device_type) := by
  have hfind : (effectiveDevices u.device_limitations).find?
      (fun x => x.device_id = incomingDeviceIdOf req.device_id) = some d := by
    rw [hsplit]
    exact find?_append_cons _ l1 d l2
      (fun x hx => by simpa using hl1 x hx) (by simpa using hd)
  have hupd : updateFirst (fun x => x.device_id = incomingDeviceIdOf req.device_id)
      (updateExistingDevice req cfg.nowFormatted) (effectiveDevices u.device_limitations) =
      l1 ++ updateExistingDevice req cfg.nowFormatted d :: l2 := by
    rw [hsplit]
    exact updateFirst_append_cons _ _ l1 d l2
      (fun x hx => by simpa using hl1 x hx) (by simpa using hd)
  rcases hs : subscriptionStep cfg.subscriptionEnabled u.role cfg.now st.subscription
    with ⟨err, sub2⟩
  rw [hs] at hsub
  dsimp only at hsub
  subst hsub
  have hdev : deviceStep cfg.deviceLimitEnabled u.role req cfg.nowFormatted
      u.device_limitations =
      (none, some { allowed_devices := some (effectiveAllowed u.device_limitations)
                    last_login := some cfg.nowFormatted
                    devices := some (l1 ++ updateExistingDevice req cfg.nowFormatted d :: l2) }) := by
    unfold deviceStep
    rw [if_pos ⟨hen, hrole⟩]
    dsimp only
    rw [hfind]
    dsimp only
    rw [hupd]
  have hl : login cfg req st =
      (LoginResult.success u.role,
        { st with
          subscription := sub2
          user := some { u with
            device_limitations := some
              { allowed_devices := some (effectiveAllowed u.device_limitations)
                last_login := some cfg.nowFormatted
                devices :=
                  some (l1 ++ updateExistingDevice req cfg.nowFormatted d :: l2) } } }) := by
    unfold login
    rw [hu]
    dsimp only
    rw [if_neg (by simp [hpw]), if_neg (by simp [hacct]), hs]
    dsimp only
    rw [hdev]
  refine ⟨by simp [hl], by simp [hl, storedDeviceList, effectiveDevices], by simp [hsplit], rfl,
    rfl, rfl, ?_, ?_, ?_, ?_⟩ <;>
    intro hne <;> simp [updateExistingDevice, jsOrS, hne]

/-- Witness for the amended C6: re-login from registered device `A` (stored
with non-empty fields) only bumps `last_login`. -/
theorem c6_existing_device_amended_witness :
    (login ⟨false, true, 0, "NOW", true⟩ ⟨none, "2.2.2.2", "Safari", "Mac", "mobile"⟩
        ⟨some ⟨"student", none,
            some ⟨some 1,
              some [⟨"unknown-device", "1.1.1.1", "Chrome", "Win", "desktop", "T0", "T0"⟩],
              none⟩⟩,
          some ⟨some "Activated"⟩, none⟩).1 = LoginResult.success "student" ∧
    storedDeviceList
        (login ⟨false, true, 0, "NOW", true⟩ ⟨none, "2.2.2.2", "Safari", "Mac", "mobile"⟩
          ⟨some ⟨"student", none,
              some ⟨some 1,
                some [⟨"unknown-device", "1.1.1.1", "Chrome", "Win", "desktop", "T0", "T0"⟩],
                none⟩⟩,
            some ⟨some "Activated"⟩, none⟩).2 =
      some ([] ++ updateExistingDevice ⟨none, "2.2.2.2", "Safari", "Mac", "mobile"⟩ "NOW"
          ⟨"unknown-device", "1.1.1.1", "Chrome", "Win", "desktop", "T0", "T0"⟩ :: []) ∧
    updateExistingDevice ⟨none, "2.2.2.2", "Safari", "Mac", "mobile"⟩ "NOW"
        ⟨"unknown-device", "1.1.1.1", "Chrome", "Win", "desktop", "T0", "T0"⟩ =
      ⟨"unknown-device", "1.1.1.1", "Chrome", "Win", "desktop", "T0", "NOW"⟩ := by
  have h := c6_existing_device_amended ⟨false, true, 0, "NOW", true⟩
    ⟨none, "2.2.2.2", "Safari", "Mac", "mobile"⟩
    ⟨some ⟨"student", none,
        some ⟨some 1,
          some [⟨"unknown-device", "1.1.1.1", "Chrome", "Win", "desktop", "T0", "T0"⟩],
          none⟩⟩,
      some ⟨some "Activated"⟩, none⟩
    ⟨"student", none,
      some ⟨some 1,
        some [⟨"unknown-device", "1.1.1.1", "Chrome", "Win", "desktop", "T0", "T0"⟩], none⟩⟩
    [] [] ⟨"unknown-device", "1.1.1.1", "Chrome", "Win", "desktop", "T0", "T0"⟩
    rfl rfl (by decide) rfl rfl (by decide) (by decide) (by simp) (by decide)
  exact ⟨h.1, h.2.1, by decide⟩

/-! ### Device administration endpoints

Embeds the PATCH and DELETE branches of `frontend/pages/api/students/devices.js`
(and the equivalent update in `frontend/pages/api/assistants/devices.js`):
request values arrive already through `parseInt` / query extraction, so a
numeric field is `Option Int` (`none` = `NaN`) and `device_id` is
`Option String` (`none` = absent).
-/

/-- Outcome of a device-admin request: `{success: true}` or a 400 error. -/
inductive AdminResult where
  | ok
  | badRequest (error : String)
deriving DecidableEq

/-- The Mongo update `$set {'device_limitations.allowed_devices': allowed}`:
only that dotted path is written; a missing `device_limitations` sub-document
is created around it. -/
def setAllowedDevices (lim : Option DeviceLimitations) (a : Int) : DeviceLimitations :=
  match lim with
  | some l => { l with allowed_devices := some a }
  | none => { allowed_devices := some a, devices := none, last_login := none }

/-- The PATCH branch: reject a missing/zero id (`!numericId ||
Number.isNaN`), reject a non-finite or non-positive `allowed_devices`, then
apply the `$set` to the matched user's `device_limitations` and answer
success. -/
def patchAllowedDevices (reqId : Option Int) (reqAllowed : Option Int)
    (lim : Option DeviceLimitations) : AdminResult × Option DeviceLimitations :=
  match reqId with
  | none => (.badRequest "invalid_id", lim)
  | some i =>
    if i = 0 then (.badRequest "invalid_id", lim)
    else
      match reqAllowed with
      | none => (.badRequest "invalid_allowed_devices", lim)
      | some a =>
        if a ≤ 0 then (.badRequest "invalid_allowed_devices", lim)
        else (.ok, some (setAllowedDevices lim a))

/-- The Mongo update `$pull {'device_limitations.devices': {device_id}}`:
every array element whose `device_id` equals the given one is removed; a
missing document or array is left untouched. -/
def pullDevice (lim : Option DeviceLimitations) (did : String) : Option DeviceLimitations :=
  match lim with
  | none => none
  | some l =>
    some { l with devices := l.devices.map (fun ds => ds.filter (fun d => d.device_id ≠ did)) }

/-- The DELETE branch: reject a missing/zero id or a missing/empty
`device_id` (`!numericId || Number.isNaN || !device_id`), then apply the
`$pull` and answer success. -/
def deleteDevice (reqId : Option Int) (reqDeviceId : Option String)
    (lim : Option DeviceLimitations) : AdminResult × Option DeviceLimitations :=
  match reqId with
  | none => (.badRequest "invalid_parameters", lim)
  | some i =>
    if i = 0 then (.badRequest "invalid_parameters", lim)
    else
      match reqDeviceId with
      | none => (.badRequest "invalid_parameters", lim)
      | some did =>
        if did = "" then (.badRequest "invalid_parameters", lim)
        else (.ok, pullDevice lim did)

/-! ### Claims about the device administration endpoints -/

/-- C7: every accepted PATCH (valid id, positive `allowed_devices`) succeeds,
writes only the `allowed_devices` field, and leaves the stored `devices`
list and `last_login` unchanged — with no condition relating the new cap to
the current list length, so lowering the cap below `devices.length` evicts
nothing. -/
theorem c7_patch_keeps_devices (reqId reqAllowed : Option Int)
    (lim : Option DeviceLimitations) (i a : Int)
    (hi : reqId = some i) (hi0 : i ≠ 0) (ha : reqAllowed = some a) (ha0 : 0 < a) :
    (patchAllowedDevices reqId reqAllowed lim).1 = AdminResult.ok ∧
    (patchAllowedDevices reqId reqAllowed lim).2 = some (setAllowedDevices lim a) ∧
    (setAllowedDevices lim a).devices =
      (lim.getD { allowed_devices := none, devices := none, last_login := none }).devices ∧
    (setAllowedDevices lim a).last_login =
      (lim.getD { allowed_devices := none, devices := none, last_login := none }).last_login ∧
    (setAllowedDevices lim a).allowed_devices = some a := by
  subst hi ha
  have hres : patchAllowedDevices (some i) (some a) lim =
      (.ok, some (setAllowedDevices lim a)) := by
    unfold patchAllowedDevices
    dsimp only
    rw [if_neg hi0, if_neg (show ¬ a ≤ 0 by omega)]
  refine ⟨by rw [hres], by rw [hres], ?_, ?_, ?_⟩ <;>
    cases lim <;> simp [setAllowedDevices]

/-- Witness for C7: setting `allowed_devices = 1` on a user with two
registered devices keeps both devices. -/
theorem c7_patch_keeps_devices_witness :
    (patchAllowedDevices (some 5) (some 1)
        (some ⟨some 3,
          some [⟨"A", "ip", "b", "o", "t", "f", "l"⟩, ⟨"B", "ip", "b", "o", "t", "f", "l"⟩],
          some "L"⟩)).1 = AdminResult.ok ∧
    (patchAllowedDevices (some 5) (some 1)
        (some ⟨some 3,
          some [⟨"A", "ip", "b", "o", "t", "f", "l"⟩, ⟨"B", "ip", "b", "o", "t", "f", "l"⟩],
          some "L"⟩)).2 =
      some (setAllowedDevices
        (some ⟨some 3,
          some [⟨"A", "ip", "b", "o", "t", "f", "l"⟩, ⟨"B", "ip", "b", "o", "t", "f", "l"⟩],
          some "L"⟩) 1) ∧
    (setAllowedDevices
        (some ⟨some 3,
          some [⟨"A", "ip", "b", "o", "t", "f", "l"⟩, ⟨"B", "ip", "b", "o", "t", "f", "l"⟩],
          some "L"⟩) 1).devices =
      some [⟨"A", "ip", "b", "o", "t", "f", "l"⟩, ⟨"B", "ip", "b", "o", "t", "f", "l"⟩] := by
  have h := c7_patch_keeps_devices (some 5) (some 1)
    (some ⟨some 3,
      some [⟨"A", "ip", "b", "o", "t", "f", "l"⟩, ⟨"B", "ip", "b", "o", "t", "f", "l"⟩],
      some "L"⟩) 5 1 rfl (by decide) rfl (by decide)
  exact ⟨h.1, h.2.1, by decide⟩

/-- C8: every accepted DELETE (valid id, non-empty `device_id`) answers
success; when no stored device carries that id the stored state is
completely unchanged (a no-op), and when exactly one device carries it that
record alone is removed. -/
theorem c8_delete_idempotent (reqId : Option Int) (reqDeviceId : Option String)
    (lim : Option DeviceLimitations) (i : Int) (did : String)
    (hi : reqId = some i) (hi0 : i ≠ 0) (hd : reqDeviceId = some did) (hd0 : did ≠ "") :
    (deleteDevice reqId reqDeviceId lim).1 = AdminResult.ok ∧
    ((∀ dv ∈ effectiveDevices lim, dv.device_id ≠ did) →
      (deleteDevice reqId reqDeviceId lim).2 = lim) ∧
    (∀ l1 dv l2, effectiveDevices lim = l1 ++ dv :: l2 → dv.device_id = did →
      (∀ x ∈ l1, x.device_id ≠ did) → (∀ x ∈ l2, x.device_id ≠ did) →
      effectiveDevices (deleteDevice reqId reqDeviceId lim).2 = l1 ++ l2) := by
  subst hi hd
  have hres : deleteDevice (some i) (some did) lim = (.ok, pullDevice lim did) := by
    unfold deleteDevice
    dsimp only
    rw [if_neg hi0, if_neg hd0]
  refine ⟨by rw [hres], ?_, ?_⟩
  · intro hnone
    rw [hres]
    dsimp only
    cases lim with
    | none => rfl
    | some l =>
      obtain ⟨la, ld, ll⟩ := l
      cases ld with
      | none => simp [pullDevice]
      | some ds =>
        simp only [pullDevice, Option.map, DeviceLimitations.mk.injEq, Option.some.injEq]
        refine ⟨trivial, ?_, trivial⟩
        rw [List.filter_eq_self]
        intro d hdm
        simpa using hnone d (by simp [effectiveDevices, hdm])
  · intro l1 dv l2 hsplit hdv hl1 hl2
    rw [hres]
    dsimp only
    cases lim with
    | none => simp [effectiveDevices] at hsplit
    | some l =>
      obtain ⟨la, ld, ll⟩ := l
      cases ld with
      | none => simp [effectiveDevices] at hsplit
      | some ds =>
        have hds2 : ds = l1 ++ dv :: l2 := by
          simpa [effectiveDevices] using hsplit
        have heff : effectiveDevices (pullDevice (some ⟨la, some ds, ll⟩) did) =
            ds.filter (fun d => d.device_id ≠ did) := rfl
        rw [heff, hds2, List.filter_append, List.filter_cons]
        have hdvf : (decide (dv.device_id ≠ did)) = false := by simp [hdv]
        rw [hdvf]
        simp only [Bool.false_eq_true, if_false]
        rw [List.filter_eq_self.mpr (fun a ha => by simpa using hl1 a ha),
          List.filter_eq_self.mpr (fun a ha => by simpa using hl2 a ha)]

/-- Witness for C8: deleting the absent id `"C"` from a two-device list is a
success-reporting no-op, and deleting the present id `"A"` removes exactly
that record. -/
theorem c8_delete_idempotent_witness :
    ((deleteDevice (some 5) (some "C")
        (some ⟨some 2,
          some [⟨"A", "ip", "b", "o", "t", "f", "l"⟩, ⟨"B", "ip2", "b2", "o2", "t2", "f2", "l2"⟩],
          some "L"⟩)).1 = AdminResult.ok ∧
      (deleteDevice (some 5) (some "C")
        (some ⟨some 2,
          some [⟨"A", "ip", "b", "o", "t", "f", "l"⟩, ⟨"B", "ip2", "b2", "o2", "t2", "f2", "l2"⟩],
          some "L"⟩)).2 =
        some ⟨some 2,
          some [⟨"A", "ip", "b", "o", "t", "f", "l"⟩, ⟨"B", "ip2", "b2", "o2", "t2", "f2", "l2"⟩],
          some "L"⟩) ∧
    effectiveDevices (deleteDevice (some 5) (some "A")
        (some ⟨some 2,
          some [⟨"A", "ip", "b", "o", "t", "f", "l"⟩, ⟨"B", "ip2", "b2", "o2", "t2", "f2", "l2"⟩],
          some "L"⟩)).2 =
      [] ++ [⟨"B", "ip2", "b2", "o2", "t2", "f2", "l2"⟩] := by
  have hC := c8_delete_idempotent (some 5) (some "C")
    (some ⟨some 2,
      some [⟨"A", "ip", "b", "o", "t", "f", "l"⟩, ⟨"B", "ip2", "b2", "o2", "t2", "f2", "l2"⟩],
      some "L"⟩) 5 "C" rfl (by decide) rfl (by decide)
  have hA := c8_delete_idempotent (some 5) (some "A")
    (some ⟨some 2,
      some [⟨"A", "ip", "b", "o", "t", "f", "l"⟩, ⟨"B", "ip2", "b2", "o2", "t2", "f2", "l2"⟩],
      some "L"⟩) 5 "A" rfl (by decide) rfl (by decide)
  refine ⟨⟨hC.1, hC.2.1 (by decide)⟩, ?_⟩
  exact hA.2.2 [] ⟨"A", "ip", "b", "o", "t", "f", "l"⟩
    [⟨"B", "ip2", "b2", "o2", "t2", "f2", "l2"⟩] (by decide) (by decide) (by simp) (by decide)

/-! ### Upload key minting

Embeds the key generation of `frontend/pages/api/upload/r2-signed-url.js`:
`const sanitizedName = fileName.replace(/[^a-zA-Z0-9._-]/g, '_');
const key = `videos/${timestamp}_${randomStr}_${sanitizedName}`;`
`timestamp` is `Date.now()` (a non-negative integer) and `randomStr` is
`Math.random().toString(36).substring(2, 10)` (base-36 digits, i.e. `0-9a-z`).
-/

/-- Membership in the character class `[a-zA-Z0-9._-]` of the sanitizing
regex. -/
def isKeySafeChar (c : Char) : Bool :=
  c.isAlphanum || c = '.' || c = '_' || c = '-'

/-- `fileName.replace(/[^a-zA-Z0-9._-]/g, '_')`: every character outside the
class is replaced by an underscore. -/
def sanitizeFileName (fileName : List Char) : List Char :=
  fileName.map (fun c => if isKeySafeChar c then c else '_')

/-- The minted object key
`videos/${timestamp}_${randomStr}_${sanitizedName}`. -/
def mintKey (timestamp : Nat) (randomStr fileName : List Char) : List Char :=
  "videos/".data ++ natChars timestamp ++ '_' :: randomStr ++ '_' :: sanitizeFileName fileName

/-- The character class that the claim says bounds the minted key
(letters, digits, dot, underscore, hyphen, slash): the sanitizer's class
plus the `/` separator. -/
def isKeyChar (c : Char) : Bool :=
  isKeySafeChar c || c = '/'

lemma digitChar_isDigit (n : Nat) (h : n < 10) : (Nat.digitChar n).isDigit = true := by
  interval_cases n <;> decide

lemma toDigitsCore_ten_all_isDigit (fuel : Nat) :
    ∀ (n : Nat) (acc : List Char), (∀ c ∈ acc, c.isDigit = true) →
      ∀ c ∈ Nat.toDigitsCore 10 fuel n acc, c.isDigit = true := by
  induction fuel with
  | zero =>
    intro n acc hacc c hc
    exact hacc c hc
  | succ f ih =>
    intro n acc hacc c hc
    unfold Nat.toDigitsCore at hc
    have hd : (Nat.digitChar (n % 10)).isDigit = true :=
      digitChar_isDigit _ (Nat.mod_lt _ (by norm_num))
    by_cases h0 : n / 10 = 0
    · rw [if_pos h0] at hc
      rcases List.mem_cons.mp hc with rfl | hc
      · exact hd
      · exact hacc c hc
    · rw [if_neg h0] at hc
      refine ih _ _ ?_ c hc
      intro x hx
      rcases List.mem_cons.mp hx with rfl | hx
      · exact hd
      · exact hacc x hx

/-- Every character of the decimal rendering of a `Nat` is a digit. -/
lemma natChars_all_isDigit (n : Nat) : ∀ c ∈ natChars n, c.isDigit = true :=
  toDigitsCore_ten_all_isDigit (n + 1) n [] (by intro c hc; cases hc)

/-- Every character the sanitizer emits lies in the key character class. -/
lemma sanitizeFileName_mem (fileName : List Char) :
    ∀ c ∈ sanitizeFileName fileName, isKeyChar c = true := by
  intro c hc
  simp only [sanitizeFileName, List.mem_map] at hc
  obtain ⟨a, _, rfl⟩ := hc
  by_cases h : isKeySafeChar a = true
  · rw [if_pos h]
    simp [isKeyChar, h]
  · rw [if_neg h]
    decide

/-- C9: for every file name, timestamp, and base-36 random suffix, the minted
key is `videos/` ++ timestamp ++ `_` ++ suffix ++ `_` ++ sanitized name,
starts with the `videos/` prefix, and contains no character outside the
class of letters, digits, dot, underscore, hyphen and slash. -/
theorem c9_mint_key (timestamp : Nat) (randomStr fileName : List Char)
    (hrnd : ∀ c ∈ randomStr, (c.isDigit || c.isLower) = true) :
    "videos/".data <+: mintKey timestamp randomStr fileName ∧
      ∀ c ∈ mintKey timestamp randomStr fileName, isKeyChar c = true := by
  constructor
  · exact ⟨_, rfl⟩
  · have hv : ∀ c ∈ "videos/".data, isKeyChar c = true := by decide
    intro c hc
    rw [mintKey] at hc
    rcases List.mem_append.mp hc with hc | hc
    · rcases List.mem_append.mp hc with hc | hc
      · rcases List.mem_append.mp hc with h1 | h2
        · exact hv c h1
        · have := natChars_all_isDigit timestamp c h2
          simp [isKeyChar, isKeySafeChar, Char.isAlphanum, this]
      · rcases List.mem_cons.mp hc with rfl | h4
        · decide
        · have := hrnd c h4
          rcases Bool.or_eq_true_iff.mp this with h | h
          · simp [isKeyChar, isKeySafeChar, Char.isAlphanum, h]
          · simp [isKeyChar, isKeySafeChar, Char.isAlphanum, Char.isAlpha, h]
    · rcases List.mem_cons.mp hc with rfl | h6
      · decide
      · exact sanitizeFileName_mem fileName c h6

/-- Witness for C9: a concrete file name with spaces and parentheses mints a
key in the allowed character set with the `videos/` prefix. -/
theorem c9_mint_key_witness :
    "videos/".data <+: mintKey 17 "ab3x".data "My Video (1).mp4".data ∧
      ∀ c ∈ mintKey 17 "ab3x".data "My Video (1).mp4".data, isKeyChar c = true :=
  c9_mint_key 17 "ab3x".data "My Video (1).mp4".data (by decide)
